import Mathlib

/-!
Shallow embedding of the core of the retail-theft-detection backend
(`backend/services/hashChain.js` and `backend/services/riskEngine.js`):
the tamper-evident hash chain, the eight anomaly detectors, the scan
aggregator (`AnomalyEngine.fullScan`), and the per-actor risk scorer
(`RiskEngine`).

Modelling conventions:
* Timestamps are milliseconds since the epoch (`Int`).  The source stores
  ISO-8601 UTC strings; their lexicographic order and their `Date`
  arithmetic agree with the integer model.
* JS numbers are `ℚ`; `Math.round x` is `⌊x + 1/2⌋` (halves toward +∞,
  exactly the JS semantics) and `Math.min` is `min`.
* SQL tables are lists of records and each query is the corresponding
  filter/sort/join on those lists; `ORDER BY` is a stable insertion sort
  on the sort key, rows without `ORDER BY` keep table order, `LIMIT n`
  is `take n`, and `=` against a SQL `NULL` operand never matches.
* Two platform primitives are not source of this repository and enter the
  embedding as parameters: `H` is the SHA-256 digest applied to the
  canonical serialization record built by `generateHash` (two inputs
  serialize equal iff the records are equal), and `jsonOk` tells whether
  `JSON.parse` succeeds on a string (its throw is modelled by `Except`).
* Human-readable message strings are kept constant: numeric interpolation
  into message text is abstracted away; no verified property concerns
  message formatting.
* JS truthiness (`x || d`): `null`/`undefined` are the `none` of an
  `Option`; the falsy `""` and falsy `0` cases are modelled explicitly.
-/

/-- JS `a || b` on two nullable values of the same type. -/
def jsOrOpt {α : Type} (a b : Option α) : Option α :=
  match a with
  | some x => some x
  | none => b

/-- JS `s || d` for a nullable string: `null` and `""` are falsy. -/
def jsOrStr (a : Option String) (d : String) : String :=
  match a with
  | none => d
  | some s => if s = "" then d else s

/-- JS `x || d` for a nullable number: `null` and `0` are falsy. -/
def jsOrNum (a : Option ℚ) (d : ℚ) : ℚ :=
  match a with
  | none => d
  | some q => if q = 0 then d else q

/-- JS `x || d` for a present number: `0` is falsy. -/
def jsOrQ (x d : ℚ) : ℚ := if x = 0 then d else x

/-- JS `Math.round`: `⌊x + 1/2⌋`, rounding halves toward positive infinity. -/
def jsRound (x : ℚ) : Int := ⌊x + 1/2⌋

/-- `ORDER BY key DESC` as a stable insertion sort. -/
def sortDescBy {α : Type} (key : α → Int) (l : List α) : List α :=
  l.insertionSort (fun a b => key b ≤ key a)

/-- `ORDER BY key ASC` as a stable insertion sort. -/
def sortAscBy {α : Type} (key : α → Nat) (l : List α) : List α :=
  l.insertionSort (fun a b => key a ≤ key b)

/-- SQL `=` between two nullable integer columns: `NULL` never matches. -/
def sqlEqN (a b : Option Nat) : Bool :=
  match a, b with
  | some x, some y => x == y
  | _, _ => false

/-- One row of the `transaction_log` table (an audit entry). -/
structure LogEntry where
  id : Nat
  transaction_id : Option Nat := none
  action : String
  performed_by : Nat
  details : Option String := none
  timestamp : Int
  prev_hash : Option String := none
  hash : String := ""
deriving DecidableEq, Repr

/-- The canonical serialization hashed by `HashChain.generateHash`: the JSON
object with exactly these six fields in this fixed order.  Two inputs have
equal serializations iff the records are equal, so the digest is a function
of this record. -/
structure HashInput where
  transaction_id : Option Nat
  action : String
  performed_by : Nat
  details : Option String
  timestamp : Int
  prev_hash : Option String
deriving DecidableEq, Repr

/-- The record `{valid, brokenAt, expected?, actual?, reason?}` returned by
`HashChain.verifyChain`. -/
structure VerifyResult where
  valid : Bool
  brokenAt : Option Nat
  expected : Option String := none
  actual : Option String := none
  reason : Option String := none
deriving DecidableEq, Repr

namespace HashChain

/-- The serialization record passed to the digest by `generateHash`. -/
def hashInput (entry : LogEntry) (prevHash : Option String) : HashInput :=
  { transaction_id := entry.transaction_id
    action := entry.action
    performed_by := entry.performed_by
    details := entry.details
    timestamp := entry.timestamp
    prev_hash := prevHash }

/-- `HashChain.generateHash(entry, prevHash)` relative to the digest `H`. -/
def generateHash (H : HashInput → String) (entry : LogEntry)
    (prevHash : Option String) : String :=
  H (hashInput entry prevHash)

/-- The loop body of `HashChain.verifyChain`: walk the entries carrying the
previous entry's stored hash (`null` before the first entry); recompute the
hash and compare it to the stored hash, then compare the stored `prev_hash`
to the carried hash; return at the first mismatch. -/
def verifyChainAux (H : HashInput → String) (prevHash : Option String) :
    List LogEntry → VerifyResult
  | [] => { valid := true, brokenAt := none }
  | entry :: rest =>
    let computed := generateHash H entry prevHash
    if computed ≠ entry.hash then
      { valid := false, brokenAt := some entry.id,
        expected := some computed, actual := some entry.hash }
    else if entry.prev_hash ≠ prevHash then
      { valid := false, brokenAt := some entry.id,
        reason := some "prev_hash mismatch" }
    else
      verifyChainAux H (some entry.hash) rest

/-- `HashChain.verifyChain(logs)` relative to the digest `H`. -/
def verifyChain (H : HashInput → String) (logs : List LogEntry) : VerifyResult :=
  verifyChainAux H none logs

/-- The hash the walk carries at position `i` when it started carrying
`prev0`: `prev0` for the first entry, the stored hash of entry `i-1` after. -/
def prevAt (prev0 : Option String) (logs : List LogEntry) : Nat → Option String
  | 0 => prev0
  | i + 1 =>
    match logs[i]? with
    | some e => some e.hash
    | none => none

/-- Both checks of the walk succeed at position `i` (positions past the end
pass vacuously). -/
def stepOk (H : HashInput → String) (prev0 : Option String)
    (logs : List LogEntry) (i : Nat) : Bool :=
  match logs[i]? with
  | none => true
  | some e =>
    decide (generateHash H e (prevAt prev0 logs i) = e.hash) &&
    decide (e.prev_hash = prevAt prev0 logs i)

end HashChain

/-- A single field mutation of an audit entry: the field selector together
with the new value written into it. -/
inductive FieldMut where
  | txnId (v : Option Nat)
  | act (v : String)
  | perfBy (v : Nat)
  | det (v : Option String)
  | ts (v : Int)
  | prevH (v : Option String)
  | hashVal (v : String)
deriving DecidableEq, Repr

/-- Apply a single-field mutation to an audit entry. -/
def applyMut (e : LogEntry) : FieldMut → LogEntry
  | .txnId v => { e with transaction_id := v }
  | .act v => { e with action := v }
  | .perfBy v => { e with performed_by := v }
  | .det v => { e with details := v }
  | .ts v => { e with timestamp := v }
  | .prevH v => { e with prev_hash := v }
  | .hashVal v => { e with hash := v }

/-- The mutation actually changes the entry (the new value differs from the
stored one). -/
def mutChanges (e : LogEntry) : FieldMut → Prop
  | .txnId v => v ≠ e.transaction_id
  | .act v => v ≠ e.action
  | .perfBy v => v ≠ e.performed_by
  | .det v => v ≠ e.details
  | .ts v => v ≠ e.timestamp
  | .prevH v => v ≠ e.prev_hash
  | .hashVal v => v ≠ e.hash

/-- One row of the `users` table (only the columns the core reads). -/
structure User where
  id : Nat
  full_name : String := ""
  role : String := ""
deriving DecidableEq, Repr

/-- One row of the `transactions` table. -/
structure Txn where
  id : Nat
  cashier_id : Nat
  counter_id : String := ""
  status : String := ""
  total : ℚ := 0
  payment_method : String := ""
  created_at : Int := 0
  completed_at : Option Int := none
  voided_at : Option Int := none
  refunded_at : Option Int := none
deriving DecidableEq, Repr

/-- One row of the `camera_events` table. -/
structure CamEvent where
  id : Nat
  event_type : String
  cashier_id : Option Nat := none
  counter_id : String := ""
  confidence : ℚ := 0
  description : String := ""
  timestamp : Int
deriving DecidableEq, Repr

/-- One row of the `alerts` table. -/
structure Alert where
  id : Nat
  source : String := ""
  severity : String := ""
  cashier_id : Option Nat := none
  description : String := ""
  created_at : Int := 0
deriving DecidableEq, Repr

/-- The relational event store the engine reads (never writes). -/
structure Store where
  users : List User := []
  transaction_log : List LogEntry := []
  transactions : List Txn := []
  camera_events : List CamEvent := []
  alerts : List Alert := []
deriving DecidableEq, Repr

/-- The `id` value of an anomaly finding: either a plain numeric id or one of
the source's tagged string ids (`chain_break_*`, `gap_*`, `id_gap_*`,
`ooo_*`, `cs_cam_*`, `cs_void_*`). -/
inductive AnomalyId where
  | num (n : Nat)
  | chainBreak (brokenAt : Option Nat)
  | gap (n : Nat)
  | idGap (n : Nat)
  | ooo (n : Nat)
  | csCam (n : Nat)
  | csVoid (n : Nat)
deriving DecidableEq, Repr

/-- One anomaly finding.  The JS objects are heterogeneous; fields a given
detector does not set are `none` / defaulted here. -/
structure Anomaly where
  id : AnomalyId := .num 0
  timestamp : Int := 0
  cashier : String := ""
  cashier_id : Option Nat := none
  description : String := ""
  transaction_id : Option Nat := none
  amount : Option ℚ := none
  gap_minutes : Option ℚ := none
  drift_minutes : Option ℚ := none
  source : Option String := none
  camera_event : Option String := none
  count : Option Nat := none
  average : Option ℚ := none
  details : Option String := none
  confidence : ℚ := 0
  risk_weight : ℚ := 0
  severity : String := ""
  category : String := ""
  category_label : String := ""
  category_icon : String := ""
deriving DecidableEq, Repr

/-- `LEFT JOIN users` name lookup by user id. -/
def userName (s : Store) (uid : Nat) : Option String :=
  (s.users.find? (fun u => u.id == uid)).map (fun u => u.full_name)

/-- Whether an inner `JOIN users` on this id succeeds. -/
def userExists (s : Store) (uid : Nat) : Bool :=
  s.users.any (fun u => u.id == uid)

/-- Name of a nullable cashier id with the JS `|| 'Unknown'` fallback. -/
def nameOrUnknown (s : Store) (uid : Option Nat) : String :=
  jsOrStr (uid.bind (userName s)) "Unknown"

namespace AnomalyEngine

/-- The message of the exception `JSON.parse` throws on malformed input. -/
def jsonParseErr : String := "SyntaxError: Unexpected token in JSON"

-- ═══ 1. Unauthorized drawer open ═══

/-- Detector 1's first query: `drawer_opened` audit entries in the window,
newest first. -/
def drawerEvents (s : Store) (since : Int) : List LogEntry :=
  sortDescBy (fun tl => tl.timestamp)
    (s.transaction_log.filter
      (fun tl => tl.action == "drawer_opened" && decide (since ≤ tl.timestamp)))

/-- Detector 1's inner query: a `cash_payment` entry for the same transaction
within the 5 minutes preceding the drawer event. -/
def hasMatchingPayment (s : Store) (evt : LogEntry) : Bool :=
  s.transaction_log.any (fun l =>
    sqlEqN l.transaction_id evt.transaction_id && l.action == "cash_payment" &&
    decide (l.timestamp ≤ evt.timestamp) &&
    decide (evt.timestamp - 5 * 60000 ≤ l.timestamp))

/-- Detector 1's loop body for one drawer event.  The source calls
`JSON.parse(evt.details || '{}')` while building the finding; a malformed
payload throws out of the detector, modelled as `Except.error`. -/
def unauthorizedDrawerCheck (jsonOk : String → Bool) (s : Store)
    (evt : LogEntry) : Except String (Option Anomaly) :=
  if hasMatchingPayment s evt then .ok none
  else
    let dstr := jsOrStr evt.details "\x7b\x7d"
    if jsonOk dstr then
      .ok (some
        { id := .num evt.id, timestamp := evt.timestamp,
          cashier := jsOrStr (userName s evt.performed_by) "Unknown",
          cashier_id := some evt.performed_by,
          description := "Drawer opened without matching cash payment",
          transaction_id := evt.transaction_id,
          confidence := 85/100, risk_weight := 20, severity := "high",
          details := some dstr })
    else .error jsonParseErr

/-- Detector 1's main loop: first malformed payload aborts the detector. -/
def collectDrawer (jsonOk : String → Bool) (s : Store) :
    List LogEntry → Except String (List Anomaly)
  | [] => .ok []
  | evt :: rest =>
    match unauthorizedDrawerCheck jsonOk s evt with
    | .error e => .error e
    | .ok a? =>
      match collectDrawer jsonOk s rest with
      | .error e => .error e
      | .ok more =>
        match a? with
        | some a => .ok (a :: more)
        | none => .ok more

/-- `AnomalyEngine.detectUnauthorizedDrawerOpen(since)`. -/
def detectUnauthorizedDrawerOpen (jsonOk : String → Bool) (s : Store)
    (since : Int) : Except String (List Anomaly) :=
  match collectDrawer jsonOk s (drawerEvents s since) with
  | .error e => .error e
  | .ok base =>
    let forced := (s.alerts.filter (fun a =>
        a.source == "drawer" && a.severity == "critical" &&
        decide (since ≤ a.created_at))).map (fun alert =>
      { id := .num alert.id, timestamp := alert.created_at,
        cashier := nameOrUnknown s alert.cashier_id,
        cashier_id := alert.cashier_id,
        description := alert.description,
        confidence := 95/100, risk_weight := 25, severity := "critical" })
    .ok (base ++ forced)

-- ═══ 2. Phantom transactions ═══

/-- A `customer_present` camera event at this counter within ±`winMin`
minutes of `t0`. -/
def hasCustomerPresent (s : Store) (counter : String) (t0 : Int)
    (winMin : Int) : Bool :=
  s.camera_events.any (fun ce =>
    ce.event_type == "customer_present" && ce.counter_id == counter &&
    decide (t0 - winMin * 60000 ≤ ce.timestamp) &&
    decide (ce.timestamp ≤ t0 + winMin * 60000))

/-- Detector 2's query: completed transactions in the window whose cashier
joins `users`, newest completion first. -/
def phantomEligible (s : Store) (since : Int) : List Txn :=
  sortDescBy (fun t => t.completed_at.getD 0)
    (s.transactions.filter (fun t =>
      t.status == "completed" &&
      (match t.completed_at with
       | some ct => decide (since ≤ ct)
       | none => false) &&
      userExists s t.cashier_id))

/-- Detector 2's loop body for one completed transaction. -/
def phantomCheck (s : Store) (t : Txn) : Option Anomaly :=
  match t.completed_at with
  | none => none
  | some ct =>
    if !hasCustomerPresent s t.counter_id ct 3 && t.payment_method == "cash" then
      some { id := .num t.id, timestamp := ct,
             cashier := (userName s t.cashier_id).getD "",
             cashier_id := some t.cashier_id,
             description := "Cash sale with no customer detected at counter",
             transaction_id := some t.id, amount := some t.total,
             confidence := 75/100, risk_weight := 20, severity := "high" }
    else none

/-- `AnomalyEngine.detectPhantomTransactions(since)`. -/
def detectPhantomTransactions (s : Store) (since : Int) : List Anomaly :=
  (phantomEligible s since).filterMap (phantomCheck s)

-- ═══ 3. Void/refund as cover ═══

/-- Detector 3's query: voided/refunded transactions created in the window
whose cashier joins `users`, newest first. -/
def voidEligible (s : Store) (since : Int) : List Txn :=
  sortDescBy (fun t => t.created_at)
    (s.transactions.filter (fun t =>
      (t.status == "voided" || t.status == "refunded") &&
      decide (since ≤ t.created_at) && userExists s t.cashier_id))

/-- The correlated subquery: timestamp of the first `completed` log entry
for this transaction (`LIMIT 1` in table order). -/
def completedTime (s : Store) (tid : Nat) : Option Int :=
  (s.transaction_log.find? (fun l =>
    sqlEqN l.transaction_id (some tid) && l.action == "completed")).map
    (fun l => l.timestamp)

/-- Detector 3's loop body for one voided/refunded transaction. -/
def voidCoverCheck (s : Store) (t : Txn) : Option Anomaly :=
  let voidTime := jsOrOpt t.voided_at t.refunded_at
  match completedTime s t.id, voidTime with
  | some ct, some vt =>
    let gapMinutes : ℚ := ((vt - ct : Int) : ℚ) / 60000
    if gapMinutes ≤ 10 ∧ 0 ≤ gapMinutes then
      let conf : ℚ :=
        if gapMinutes ≤ 2 then 95/100
        else if gapMinutes ≤ 5 then 80/100
        else 65/100
      some { id := .num t.id, timestamp := vt,
             cashier := (userName s t.cashier_id).getD "",
             cashier_id := some t.cashier_id,
             description := "Void or refund issued minutes after completion",
             transaction_id := some t.id, amount := some t.total,
             gap_minutes := some gapMinutes,
             confidence := conf, risk_weight := 20,
             severity := if conf ≥ 80/100 then "critical" else "high" }
    else none
  | _, _ => none

/-- `AnomalyEngine.detectVoidRefundCover(since)`. -/
def detectVoidRefundCover (s : Store) (since : Int) : List Anomaly :=
  (voidEligible s since).filterMap (voidCoverCheck s)

-- ═══ 4. Discount & override abuse ═══

/-- Discount/price-edit audit entries in the window. -/
def discountLog (s : Store) (since : Int) : List LogEntry :=
  s.transaction_log.filter (fun l =>
    (l.action == "price_edited" || l.action == "discount_applied") &&
    decide (since ≤ l.timestamp))

/-- The actors of the `GROUP BY performed_by` rows. -/
def discountActors (s : Store) (since : Int) : List Nat :=
  ((discountLog s since).map (fun l => l.performed_by)).dedup

/-- One group's `COUNT(*)`. -/
def discountCountOf (s : Store) (since : Int) (actor : Nat) : Nat :=
  (discountLog s since).countP (fun l => l.performed_by == actor)

/-- The `role = 'cashier'` rows of `users`. -/
def cashiers (s : Store) : List User :=
  s.users.filter (fun u => u.role == "cashier")

/-- Sum of all group counts (= number of discount/price-edit entries). -/
def totalDiscounts (s : Store) (since : Int) : Nat :=
  (discountLog s since).length

/-- The population mean per cashier (0 when there are no cashiers). -/
def avgPerCashier (s : Store) (since : Int) : ℚ :=
  if 0 < (cashiers s).length then
    (totalDiscounts s since : ℚ) / ((cashiers s).length : ℚ)
  else 0

/-- Detector 4's loop body for one `GROUP BY` row. -/
def discountAbuseCheck (s : Store) (since : Int) (actor : Nat) :
    Option Anomaly :=
  let c := discountCountOf s since actor
  let avg := avgPerCashier s since
  if (c : ℚ) > avg * 2 ∧ 3 ≤ c then
    some { id := .num actor, timestamp := since,
           cashier := jsOrStr
             (((cashiers s).find? (fun u => u.id == actor)).map
               (fun u => u.full_name)) "Unknown",
           cashier_id := some actor,
           description := "Discounts/overrides above average",
           count := some c, average := some avg,
           confidence := min (95/100) (1/2 + ((c : ℚ) / jsOrQ avg 1) * (1/10)),
           risk_weight := 12,
           severity := if (c : ℚ) > avg * 5 then "critical" else "medium" }
  else none

/-- `AnomalyEngine.detectDiscountAbuse(since)`. -/
def detectDiscountAbuse (s : Store) (since : Int) : List Anomaly :=
  (discountActors s since).filterMap (discountAbuseCheck s since)

-- ═══ 5. Log tampering / deletion ═══

/-- `SELECT * FROM transaction_log ORDER BY id ASC`. -/
def logsById (s : Store) : List LogEntry :=
  sortAscBy (fun l => l.id) s.transaction_log

/-- The hash-chain integrity finding (scan-time timestamp `now`). -/
def chainBreakFindings (H : HashInput → String) (s : Store) (now : Int) :
    List Anomaly :=
  let logs := logsById s
  if 0 < logs.length then
    let chainResult := HashChain.verifyChain H logs
    if chainResult.valid then []
    else
      [{ id := .chainBreak chainResult.brokenAt, timestamp := now,
         cashier := "SYSTEM",
         description := "Hash chain integrity BROKEN at log entry",
         confidence := 1, risk_weight := 50, severity := "critical" }]
  else []

/-- JS `Date.prototype.getHours` on a millisecond timestamp (UTC model; the
source reads the process-local hour, which the spec flags as ambiguous). -/
def getHours (ts : Int) : Int := ts.fdiv 3600000 % 24

/-- Detector 5's gap-loop body for one adjacent pair (earlier, later) in id
order. -/
def gapCheck (prevE curr : LogEntry) : Option Anomaly :=
  let gapMinutes : ℚ := ((curr.timestamp - prevE.timestamp : Int) : ℚ) / 60000
  let hour := getHours prevE.timestamp
  if gapMinutes > 30 ∧ 8 ≤ hour ∧ hour ≤ 22 then
    some { id := .gap curr.id, timestamp := curr.timestamp,
           cashier := "SYSTEM",
           description := "Minutes-long gap in audit log (possible deletion)",
           gap_minutes := some gapMinutes,
           confidence := min (95/100) (1/2 + gapMinutes / 120),
           risk_weight := 30,
           severity := if gapMinutes > 60 then "critical" else "high" }
  else none

/-- Adjacent pairs of a list, in order. -/
def adjPairs {α : Type} (l : List α) : List (α × α) := l.zip l.tail

/-- The timestamp-gap findings over the id-ordered log. -/
def gapFindings (s : Store) : List Anomaly :=
  (adjPairs (logsById s)).filterMap (fun pq => gapCheck pq.1 pq.2)

/-- Detector 5's id-gap query: pairs `(a, b)` with `b.id = a.id + 2` and no
entry `a.id + 1`, cross join in table order, `LIMIT 10`. -/
def idGapPairs (s : Store) : List (LogEntry × LogEntry) :=
  ((s.transaction_log.product s.transaction_log).filter (fun ab =>
    ab.2.id == ab.1.id + 2 &&
    !(s.transaction_log.any (fun c => c.id == ab.1.id + 1)))).take 10

/-- The missing-sequence-id findings (scan-time timestamp `now`). -/
def idGapFindings (s : Store) (now : Int) : List Anomaly :=
  (idGapPairs s).map (fun ab =>
    { id := .idGap ab.1.id, timestamp := now, cashier := "SYSTEM",
      description := "Missing log entry (possible deletion)",
      confidence := 90/100, risk_weight := 40, severity := "critical" })

/-- `AnomalyEngine.detectLogTampering()` (not window-bounded). -/
def detectLogTampering (H : HashInput → String) (s : Store) (now : Int) :
    List Anomaly :=
  chainBreakFindings H s now ++ gapFindings s ++ idGapFindings s now

-- ═══ 6. Drawer open without transaction ═══

/-- Detector 6's query: camera drawer events in the window (table order). -/
def drawerCamEvents (s : Store) (since : Int) : List CamEvent :=
  s.camera_events.filter (fun ce =>
    (ce.event_type == "drawer_opened_no_pos" ||
     ce.event_type == "drawer_forced_open") &&
    decide (since ≤ ce.timestamp))

/-- The first completed transaction at this counter within ±`winMin` minutes
of `t0`. -/
def matchingTxnAt (s : Store) (counter : String) (t0 : Int) (winMin : Int) :
    Option Txn :=
  s.transactions.find? (fun t =>
    t.counter_id == counter && t.status == "completed" &&
    (match t.completed_at with
     | some ct =>
       decide (t0 - winMin * 60000 ≤ ct) && decide (ct ≤ t0 + winMin * 60000)
     | none => false))

/-- Detector 6's loop body for one camera drawer event.  When no matching
transaction exists, the camera event's own confidence is used as the
finding's confidence, unchecked. -/
def drawerNoTxnCheck (s : Store) (evt : CamEvent) : Anomaly :=
  match matchingTxnAt s evt.counter_id evt.timestamp 2 with
  | some t =>
    { id := .num evt.id, timestamp := evt.timestamp,
      cashier := nameOrUnknown s evt.cashier_id,
      cashier_id := evt.cashier_id,
      description := "Drawer opened by non-standard method (transaction exists)",
      transaction_id := if t.id == 0 then none else some t.id,
      confidence := 1/2, risk_weight := 10, severity := "medium" }
  | none =>
    { id := .num evt.id, timestamp := evt.timestamp,
      cashier := nameOrUnknown s evt.cashier_id,
      cashier_id := evt.cashier_id,
      description := "Drawer opened with NO linked transaction",
      transaction_id := none,
      confidence := evt.confidence, risk_weight := 25, severity := "high" }

/-- `AnomalyEngine.detectDrawerNoTransaction(since)`. -/
def detectDrawerNoTransaction (s : Store) (since : Int) : List Anomaly :=
  (drawerCamEvents s since).map (drawerNoTxnCheck s)

-- ═══ 7. Time manipulation ═══

/-- Detector 7's first query: transactions created more than 60 s after the
observation time `now`, in the window, cashier joined (table order). -/
def futureTxns (s : Store) (since now : Int) : List Txn :=
  s.transactions.filter (fun t =>
    decide (t.created_at > now + 60000) && decide (since ≤ t.created_at) &&
    userExists s t.cashier_id)

/-- Detector 7's second query: adjacent-id pairs with out-of-order
timestamps, `LIMIT 10`. -/
def oooPairs (s : Store) (since : Int) : List (LogEntry × LogEntry) :=
  ((s.transaction_log.product s.transaction_log).filter (fun ab =>
    ab.2.id == ab.1.id + 1 && decide (ab.1.timestamp > ab.2.timestamp) &&
    decide (since ≤ ab.1.timestamp))).take 10

/-- `AnomalyEngine.detectTimeManipulation(since)` at observation time `now`. -/
def detectTimeManipulation (s : Store) (since now : Int) : List Anomaly :=
  (futureTxns s since now).map (fun t =>
    { id := .num t.id, timestamp := t.created_at,
      cashier := (userName s t.cashier_id).getD "",
      cashier_id := some t.cashier_id,
      description := "Transaction timestamp in the future - possible clock manipulation",
      drift_minutes := some (((t.created_at - now : Int) : ℚ) / 60000),
      confidence := 90/100, risk_weight := 30, severity := "critical" })
  ++ (oooPairs s since).map (fun ab =>
    { id := .ooo ab.1.id, timestamp := ab.1.timestamp,
      cashier := jsOrStr (userName s ab.1.performed_by) "Unknown",
      cashier_id := some ab.1.performed_by,
      description := "Out-of-order timestamps in audit log",
      confidence := 85/100, risk_weight := 25, severity := "high" })

-- ═══ 8. Cross-source correlation ═══

/-- Case A query: suspicious camera events in the window (table order). -/
def suspiciousCamEvents (s : Store) (since : Int) : List CamEvent :=
  s.camera_events.filter (fun ce =>
    (ce.event_type == "hand_to_pocket" ||
     ce.event_type == "suspicious_gesture" ||
     ce.event_type == "drawer_forced_open") &&
    decide (since ≤ ce.timestamp))

/-- Case A inner query: `COUNT(*)` of audit entries by this actor within
±5 minutes (`= NULL` never matches). -/
def posActivityCount (s : Store) (cid : Option Nat) (t0 : Int) : Nat :=
  (s.transaction_log.filter (fun l =>
    (match cid with
     | some c => l.performed_by == c
     | none => false) &&
    decide (t0 - 5 * 60000 ≤ l.timestamp) &&
    decide (l.timestamp ≤ t0 + 5 * 60000))).length

/-- Case A loop body: camera activity with no nearby POS activity.  The
finding's confidence is the camera confidence times 0.9, unchecked. -/
def crossCamCheck (s : Store) (evt : CamEvent) : Option Anomaly :=
  if posActivityCount s evt.cashier_id evt.timestamp == 0 then
    some { id := .csCam evt.id, timestamp := evt.timestamp,
           cashier := nameOrUnknown s evt.cashier_id,
           cashier_id := evt.cashier_id,
           description := "Camera event with NO POS activity logged nearby",
           source := some "camera_only", camera_event := some evt.event_type,
           confidence := evt.confidence * (9/10), risk_weight := 20,
           severity :=
             if evt.event_type == "drawer_forced_open" then "critical"
             else "high" }
  else none

/-- Case B query: void/refund audit entries in the window joined to their
performer and transaction. -/
def voidLogsJoined (s : Store) (since : Int) : List (LogEntry × Txn) :=
  (s.transaction_log.filter (fun l =>
    (l.action == "voided" || l.action == "refunded") &&
    decide (since ≤ l.timestamp) && userExists s l.performed_by)).flatMap
    (fun l => (s.transactions.filter (fun t =>
      sqlEqN l.transaction_id (some t.id))).map (fun t => (l, t)))

/-- Case B loop body: a void with no customer present at the counter. -/
def crossVoidCheck (s : Store) (lt : LogEntry × Txn) : Option Anomaly :=
  if hasCustomerPresent s lt.2.counter_id lt.1.timestamp 2 then none
  else
    some { id := .csVoid lt.1.id, timestamp := lt.1.timestamp,
           cashier := (userName s lt.1.performed_by).getD "",
           cashier_id := some lt.1.performed_by,
           description := "Void logged but NO customer present at counter",
           source := some "pos_void_no_customer",
           transaction_id := lt.1.transaction_id,
           confidence := 95/100, risk_weight := 25, severity := "critical" }

/-- `AnomalyEngine.detectCrossSourceCorrelation(since)`. -/
def detectCrossSourceCorrelation (s : Store) (since : Int) : List Anomaly :=
  (suspiciousCamEvents s since).filterMap (crossCamCheck s) ++
  (voidLogsJoined s since).filterMap (crossVoidCheck s)

-- ═══ Aggregation ═══

/-- `AnomalyEngine._categorySeverity(items)`. -/
def categorySeverity (items : List Anomaly) : String :=
  if items.any (fun i => i.severity == "critical") then "critical"
  else if items.any (fun i => i.severity == "high") then "high"
  else if items.any (fun i => i.severity == "medium") then "medium"
  else if 0 < items.length then "low"
  else "clear"

/-- One per-category block of `results.summary`. -/
structure CatSummary where
  label : String
  icon : String
  count : Nat
  severity : String
  items : List Anomaly
deriving DecidableEq, Repr

/-- The `ScanReport` returned by `AnomalyEngine.fullScan`. -/
structure ScanReport where
  scan_timestamp : Int
  period_hours : Nat
  anomalies : List Anomaly
  summary : List (String × CatSummary)
  total_anomalies : Nat
  prosecution_score : Int
deriving DecidableEq, Repr

/-- Tag one finding with its category key/label/icon (the source mutates the
shared objects, so the summary blocks alias the tagged findings). -/
def tagAnomaly (cat lab icon : String) (a : Anomaly) : Anomaly :=
  { a with category := cat, category_label := lab, category_icon := icon }

/-- Build one summary block. -/
def mkSummary (label icon : String) (items : List Anomaly) : CatSummary :=
  { label := label, icon := icon, count := items.length,
    severity := categorySeverity items, items := items }

/-- `AnomalyEngine.fullScan(hoursBack)` at observation time `now` (the source
reads `Date.now()`; the clock is passed explicitly here).  Detector 1 runs
first while the detector array is built; an exception from it aborts the
whole scan. -/
def fullScan (H : HashInput → String) (jsonOk : String → Bool) (s : Store)
    (hoursBack : Nat) (now : Int) : Except String ScanReport :=
  let since : Int := now - (hoursBack : Int) * 3600000
  match detectUnauthorizedDrawerOpen jsonOk s since with
  | .error e => .error e
  | .ok d1 =>
    let t1 := d1.map
      (tagAnomaly "unauthorized_drawer_open" "Unauthorized Drawer Open" "🔓")
    let t2 := (detectPhantomTransactions s since).map
      (tagAnomaly "phantom_transaction" "Phantom Transactions" "👻")
    let t3 := (detectVoidRefundCover s since).map
      (tagAnomaly "void_refund_cover" "Void/Refund as Cover" "🔄")
    let t4 := (detectDiscountAbuse s since).map
      (tagAnomaly "discount_abuse" "Discount & Override Abuse" "💸")
    let t5 := (detectLogTampering H s now).map
      (tagAnomaly "log_tampering" "Log Tampering / Deletion" "🛡️")
    let t6 := (detectDrawerNoTransaction s since).map
      (tagAnomaly "drawer_no_transaction" "Drawer Open Without Transaction" "📭")
    let t7 := (detectTimeManipulation s since now).map
      (tagAnomaly "time_manipulation" "Time Manipulation" "⏰")
    let t8 := (detectCrossSourceCorrelation s since).map
      (tagAnomaly "cross_source_correlation" "Cross-Source Correlation" "🔗")
    let anomalies := t1 ++ t2 ++ t3 ++ t4 ++ t5 ++ t6 ++ t7 ++ t8
    let totalScore : ℚ :=
      (anomalies.map (fun a => a.confidence * jsOrQ a.risk_weight 10)).sum
    .ok { scan_timestamp := now, period_hours := hoursBack,
          anomalies := anomalies,
          summary :=
            [("unauthorized_drawer_open",
              mkSummary "Unauthorized Drawer Open" "🔓" t1),
             ("phantom_transaction",
              mkSummary "Phantom Transactions" "👻" t2),
             ("void_refund_cover",
              mkSummary "Void/Refund as Cover" "🔄" t3),
             ("discount_abuse",
              mkSummary "Discount & Override Abuse" "💸" t4),
             ("log_tampering",
              mkSummary "Log Tampering / Deletion" "🛡️" t5),
             ("drawer_no_transaction",
              mkSummary "Drawer Open Without Transaction" "📭" t6),
             ("time_manipulation",
              mkSummary "Time Manipulation" "⏰" t7),
             ("cross_source_correlation",
              mkSummary "Cross-Source Correlation" "🔗" t8)],
          total_anomalies := anomalies.length,
          prosecution_score := min 100 (jsRound totalScore) }

end AnomalyEngine

-- ═══ Risk Scorer (`RiskEngine`) ═══

namespace RiskEngine

/-- The `SW_WEIGHTS` table. -/
def SW_WEIGHTS : List (String × ℚ) :=
  [("price_edit", 15), ("void_transaction", 20), ("refund", 10),
   ("backdate", 30), ("delete_attempt", 50), ("unusual_discount", 12),
   ("rapid_voids", 25), ("off_hours_activity", 18)]

/-- The `PH_WEIGHTS` table. -/
def PH_WEIGHTS : List (String × ℚ) :=
  [("hand_to_pocket", 35), ("hand_hovering_drawer", 15),
   ("drawer_opened_no_pos", 40), ("drawer_forced_open", 45),
   ("suspicious_gesture", 20), ("repeated_drawer_access", 25)]

/-- `TABLE[key]` (undefined when the key is absent). -/
def weightLookup (tbl : List (String × ℚ)) (t : String) : Option ℚ :=
  (tbl.find? (fun p => p.1 == t)).map (fun p => p.2)

/-- A software anomaly event as consumed by `calculateSoftwareScore`. -/
structure SWEvent where
  type : String
  confidence : Option ℚ := none
deriving DecidableEq, Repr

/-- A camera event as consumed by `calculatePhysicalScore`. -/
structure PhysEvent where
  event_type : String
  confidence : Option ℚ := none
deriving DecidableEq, Repr

/-- One loop iteration of `calculateSoftwareScore`:
`(SW_WEIGHTS[event.type] || 5) * (event.confidence || 1)`. -/
def swContrib (e : SWEvent) : ℚ :=
  jsOrNum (weightLookup SW_WEIGHTS e.type) 5 * jsOrNum e.confidence 1

/-- `RiskEngine.calculateSoftwareScore(events)`. -/
def calculateSoftwareScore (events : List SWEvent) : ℚ :=
  min 100 ((events.map swContrib).sum)

/-- One loop iteration of `calculatePhysicalScore`:
`(PH_WEIGHTS[event.event_type] || 10) * (event.confidence || 0.5)`. -/
def phContrib (e : PhysEvent) : ℚ :=
  jsOrNum (weightLookup PH_WEIGHTS e.event_type) 10 * jsOrNum e.confidence (1/2)

/-- `RiskEngine.calculatePhysicalScore(events)`. -/
def calculatePhysicalScore (events : List PhysEvent) : ℚ :=
  min 100 ((events.map phContrib).sum)

/-- `RiskEngine.combinedScore(swScore, phScore)`. -/
def combinedScore (swScore phScore : ℚ) : ℚ :=
  if 0 < swScore ∧ 0 < phScore then
    min 100 ((jsRound (swScore * (45/100) + phScore * (55/100)) : ℚ))
  else max swScore phScore

end RiskEngine

-- ═══════════════════════════════════════════════════════════════════
-- Concrete fixtures used by witnesses and counterexamples
-- ═══════════════════════════════════════════════════════════════════

/-- A toy digest for concrete chain fixtures (the verifier's behaviour is
proved for every digest `H`; witnesses instantiate it). -/
def c1H : HashInput → String := fun x =>
  match x.prev_hash with
  | none => "A"
  | some s => String.append "B" s

/-- A two-entry chain whose second entry stores a wrong hash. -/
def c1logs : List LogEntry :=
  [{ id := 1, action := "created", performed_by := 1, timestamp := 0,
     prev_hash := none, hash := "A" },
   { id := 2, action := "completed", performed_by := 1, timestamp := 60000,
     prev_hash := some "A", hash := "WRONG" }]

/-- The toy digest for the tampering witness. -/
def c2H : HashInput → String := fun x =>
  match x.prev_hash with
  | none => "A"
  | some s => String.append "B" s

/-- First entry of a valid two-entry chain under `c2H`. -/
def c2e1 : LogEntry :=
  { id := 1, action := "created", performed_by := 1, timestamp := 0,
    prev_hash := none, hash := "A" }

/-- Second entry of the valid chain under `c2H`. -/
def c2e2 : LogEntry :=
  { id := 2, action := "completed", performed_by := 1, timestamp := 60000,
    prev_hash := some "A", hash := "BA" }

/-- A valid two-entry chain under `c2H`. -/
def c2logs : List LogEntry := [c2e1, c2e2]

/-- Cashier used by the void/refund-cover witness. -/
def c7user : User := { id := 1, full_name := "Alice", role := "cashier" }

/-- A transaction voided 90 seconds after completion. -/
def c7txn : Txn :=
  { id := 1, cashier_id := 1, counter_id := "c1", status := "voided",
    total := 20, payment_method := "cash", created_at := 1000000,
    completed_at := some 1000000, voided_at := some 1090000 }

/-- The `completed` audit entry of `c7txn`. -/
def c7log : LogEntry :=
  { id := 1, transaction_id := some 1, action := "completed",
    performed_by := 1, timestamp := 1000000 }

/-- Store for the void/refund-cover witness. -/
def c7s : Store :=
  { users := [c7user], transaction_log := [c7log], transactions := [c7txn] }

/-- Five cashiers; actor 1 makes all six price edits, so the mean is 1.2. -/
def c8users : List User :=
  [{ id := 1, full_name := "A", role := "cashier" },
   { id := 2, full_name := "B", role := "cashier" },
   { id := 3, full_name := "C", role := "cashier" },
   { id := 4, full_name := "D", role := "cashier" },
   { id := 5, full_name := "E", role := "cashier" }]

/-- Six price-edit audit entries by actor 1. -/
def c8log : List LogEntry :=
  [{ id := 1, action := "price_edited", performed_by := 1, timestamp := 10 },
   { id := 2, action := "price_edited", performed_by := 1, timestamp := 11 },
   { id := 3, action := "price_edited", performed_by := 1, timestamp := 12 },
   { id := 4, action := "price_edited", performed_by := 1, timestamp := 13 },
   { id := 5, action := "price_edited", performed_by := 1, timestamp := 14 },
   { id := 6, action := "price_edited", performed_by := 1, timestamp := 15 }]

/-- Store for the discount-abuse boundary witness (count 6, mean 1.2). -/
def c8s : Store := { users := c8users, transaction_log := c8log }

/-- Earlier entry of a 45-minute gap starting at hour 8. -/
def c9a : LogEntry :=
  { id := 1, action := "created", performed_by := 1,
    timestamp := 8 * 3600000 }

/-- Later entry of the 45-minute gap. -/
def c9b : LogEntry :=
  { id := 2, action := "completed", performed_by := 1,
    timestamp := 8 * 3600000 + 45 * 60000 }

/-- A digest placeholder for scans whose stores never invoke it. -/
def H0 : HashInput → String := fun _ => ""

/-- `JSON.parse` succeeding on every payload. -/
def jOkAll : String → Bool := fun _ => true

/-- `JSON.parse` succeeding only on the default payload `"{}"`. -/
def jsonOkStd : String → Bool := fun str => str == "\x7b\x7d"

/-- A camera drawer event carrying an out-of-range negative confidence. -/
def c3cam : CamEvent :=
  { id := 1, event_type := "drawer_opened_no_pos", counter_id := "c1",
    confidence := -10, timestamp := 0 }

/-- Store whose only signal is the negative-confidence camera event. -/
def c3s : Store := { camera_events := [c3cam] }

/-- A camera drawer event whose confidence 2 lies outside [0, 1]. -/
def c4cam : CamEvent :=
  { id := 1, event_type := "drawer_opened_no_pos", counter_id := "c1",
    confidence := 2, timestamp := 1000 }

/-- Store for the confidence-clamping counterexample. -/
def c4s : Store := { camera_events := [c4cam] }

/-- A camera drawer event with an in-range confidence, for the pass-through
witness. -/
def c4wcam : CamEvent :=
  { id := 2, event_type := "drawer_forced_open", counter_id := "c2",
    confidence := 3/4, timestamp := 500 }

/-- Store for the pass-through witness. -/
def c4ws : Store := { camera_events := [c4wcam] }

/-- A `drawer_opened` audit entry whose details payload is not valid JSON
and which has no matching cash payment. -/
def c5log : LogEntry :=
  { id := 1, transaction_id := some 1, action := "drawer_opened",
    performed_by := 1, details := some "not-json", timestamp := 0 }

/-- Store on which detector 1 throws while parsing the details payload. -/
def c5s : Store := { transaction_log := [c5log] }

-- ═══════════════════════════════════════════════════════════════════
-- Theorems
-- ═══════════════════════════════════════════════════════════════════

namespace HashChain

theorem prevAt_cons_succ (prev0 : Option String) (e : LogEntry)
    (rest : List LogEntry) (i : Nat) :
    prevAt prev0 (e :: rest) (i + 1) = prevAt (some e.hash) rest i := by
  cases i with
  | zero => simp [prevAt]
  | succ j => simp [prevAt, List.getElem?_cons_succ]

theorem stepOk_cons_succ (H : HashInput → String) (prev0 : Option String)
    (e : LogEntry) (rest : List LogEntry) (i : Nat) :
    stepOk H prev0 (e :: rest) (i + 1) = stepOk H (some e.hash) rest i := by
  simp only [stepOk, List.getElem?_cons_succ, prevAt_cons_succ]

theorem stepOk_zero (H : HashInput → String) (prev0 : Option String)
    (e : LogEntry) (rest : List LogEntry) :
    stepOk H prev0 (e :: rest) 0 =
      (decide (generateHash H e prev0 = e.hash) &&
       decide (e.prev_hash = prev0)) := by
  simp [stepOk, prevAt]

theorem stepOk_of_le_length (H : HashInput → String) (prev0 : Option String)
    (logs : List LogEntry) (i : Nat) (h : logs.length ≤ i) :
    stepOk H prev0 logs i = true := by
  unfold stepOk
  rw [List.getElem?_eq_none h]

theorem verifyChainAux_ok (H : HashInput → String) :
    ∀ (logs : List LogEntry) (prev0 : Option String),
    (∀ i, stepOk H prev0 logs i = true) →
    verifyChainAux H prev0 logs = { valid := true, brokenAt := none } := by
  intro logs
  induction logs with
  | nil => intro prev0 _; rfl
  | cons e rest ih =>
    intro prev0 hall
    have h0 := hall 0
    rw [stepOk_zero] at h0
    simp only [Bool.and_eq_true, decide_eq_true_eq] at h0
    obtain ⟨h1, h2⟩ := h0
    have hrec := ih (some e.hash) (fun i => by
      have := hall (i + 1); rwa [stepOk_cons_succ] at this)
    simp [verifyChainAux, h1, h2, hrec]

theorem verifyChainAux_valid (H : HashInput → String) :
    ∀ (logs : List LogEntry) (prev0 : Option String),
    (verifyChainAux H prev0 logs).valid = true →
    ∀ i, stepOk H prev0 logs i = true := by
  intro logs
  induction logs with
  | nil => intro prev0 _ i; exact stepOk_of_le_length _ _ _ _ (Nat.zero_le i)
  | cons e rest ih =>
    intro prev0 hv i
    by_cases h1 : generateHash H e prev0 = e.hash
    · by_cases h2 : e.prev_hash = prev0
      · have hrec : (verifyChainAux H (some e.hash) rest).valid = true := by
          have : verifyChainAux H prev0 (e :: rest) =
              verifyChainAux H (some e.hash) rest := by
            simp [verifyChainAux, h1, h2]
          rwa [this] at hv
        cases i with
        | zero => rw [stepOk_zero]; simp [h1, h2]
        | succ j => rw [stepOk_cons_succ]; exact ih (some e.hash) hrec j
      · exfalso
        have : verifyChainAux H prev0 (e :: rest) =
            { valid := false, brokenAt := some e.id,
              reason := some "prev_hash mismatch" } := by
          simp [verifyChainAux, h1, h2]
        rw [this] at hv
        simp at hv
    · exfalso
      have : verifyChainAux H prev0 (e :: rest) =
          { valid := false, brokenAt := some e.id,
            expected := some (generateHash H e prev0),
            actual := some e.hash } := by
        simp [verifyChainAux, h1]
      rw [this] at hv
      simp at hv

theorem verifyChainAux_break (H : HashInput → String) :
    ∀ (logs : List LogEntry) (prev0 : Option String) (j : Nat)
      (hj : j < logs.length),
    (∀ i, i < j → stepOk H prev0 logs i = true) →
    stepOk H prev0 logs j = false →
    verifyChainAux H prev0 logs =
      (if generateHash H logs[j] (prevAt prev0 logs j) ≠ logs[j].hash then
        { valid := false, brokenAt := some logs[j].id,
          expected := some (generateHash H logs[j] (prevAt prev0 logs j)),
          actual := some logs[j].hash }
      else
        { valid := false, brokenAt := some logs[j].id,
          reason := some "prev_hash mismatch" }) := by
  intro logs
  induction logs with
  | nil => intro prev0 j hj; simp at hj
  | cons e rest ih =>
    intro prev0 j hj hpre hbad
    cases j with
    | zero =>
      by_cases h1 : generateHash H e prev0 = e.hash
      · have h2 : ¬ e.prev_hash = prev0 := by
          intro h2
          rw [stepOk_zero] at hbad
          simp [h1, h2] at hbad
        simp [verifyChainAux, h1, h2, prevAt]
      · simp [verifyChainAux, h1, prevAt]
    | succ j' =>
      have h0 := hpre 0 (Nat.succ_pos _)
      rw [stepOk_zero] at h0
      simp only [Bool.and_eq_true, decide_eq_true_eq] at h0
      obtain ⟨h1, h2⟩ := h0
      have hj' : j' < rest.length := by simpa using hj
      have hrec := ih (some e.hash) j' hj'
        (fun i hi => by
          have := hpre (i + 1) (by omega)
          rwa [stepOk_cons_succ] at this)
        (by rw [← stepOk_cons_succ]; exact hbad)
      have hstep : verifyChainAux H prev0 (e :: rest) =
          verifyChainAux H (some e.hash) rest := by
        simp [verifyChainAux, h1, h2]
      rw [hstep, hrec]
      simp [List.getElem_cons_succ, prevAt_cons_succ]

theorem verifyChainAux_take (H : HashInput → String) :
    ∀ (logs : List LogEntry) (prev0 : Option String) (j : Nat),
    j < logs.length →
    (∀ i, i < j → stepOk H prev0 logs i = true) →
    stepOk H prev0 logs j = false →
    verifyChainAux H prev0 logs = verifyChainAux H prev0 (logs.take (j + 1)) := by
  intro logs
  induction logs with
  | nil => intro prev0 j hj; simp at hj
  | cons e rest ih =>
    intro prev0 j hj hpre hbad
    cases j with
    | zero =>
      by_cases h1 : generateHash H e prev0 = e.hash
      · have h2 : ¬ e.prev_hash = prev0 := by
          intro h2
          rw [stepOk_zero] at hbad
          simp [h1, h2] at hbad
        simp [verifyChainAux, h1, h2]
      · simp [verifyChainAux, h1]
    | succ j' =>
      have h0 := hpre 0 (Nat.succ_pos _)
      rw [stepOk_zero] at h0
      simp only [Bool.and_eq_true, decide_eq_true_eq] at h0
      obtain ⟨h1, h2⟩ := h0
      have hj' : j' < rest.length := by simpa using hj
      have hrec := ih (some e.hash) j' hj'
        (fun i hi => by
          have := hpre (i + 1) (by omega)
          rwa [stepOk_cons_succ] at this)
        (by rw [← stepOk_cons_succ]; exact hbad)
      simp only [List.take_succ_cons]
      have hstep : verifyChainAux H prev0 (e :: rest) =
          verifyChainAux H (some e.hash) rest := by
        simp [verifyChainAux, h1, h2]
      have hstep' : verifyChainAux H prev0 (e :: rest.take (j' + 1)) =
          verifyChainAux H (some e.hash) (rest.take (j' + 1)) := by
        simp [verifyChainAux, h1, h2]
      rw [hstep, hstep', hrec]

end HashChain

/-- C1: for every list of audit entries, `verifyChain` walks the list once;
at each entry it first recomputes the hash from the entry's fields and the
previous entry's stored hash and compares it to the entry's stored hash,
then compares the entry's stored `prev_hash` to the previous entry's stored
hash; the first mismatch on either check stops the walk and is returned as
the break point (`brokenAt` = that entry's id, and the result is already
determined by the first `j+1` entries); the empty list returns
`{valid: true, brokenAt: null}`. -/
theorem C1_verifyChain_walk (H : HashInput → String) :
    (HashChain.verifyChain H [] = { valid := true, brokenAt := none }) ∧
    (∀ logs : List LogEntry,
      ((List.range logs.length).all
        (fun i => HashChain.stepOk H none logs i)) = true →
      HashChain.verifyChain H logs = { valid := true, brokenAt := none }) ∧
    (∀ (logs : List LogEntry) (j : Nat) (hj : j < logs.length),
      ((List.range j).all (fun i => HashChain.stepOk H none logs i)) = true →
      HashChain.stepOk H none logs j = false →
      (HashChain.verifyChain H logs).valid = false ∧
      (HashChain.verifyChain H logs).brokenAt = some logs[j].id ∧
      HashChain.verifyChain H logs = HashChain.verifyChain H (logs.take (j + 1)) ∧
      (if HashChain.generateHash H logs[j] (HashChain.prevAt none logs j) ≠
           logs[j].hash then
         (HashChain.verifyChain H logs).expected =
           some (HashChain.generateHash H logs[j] (HashChain.prevAt none logs j)) ∧
         (HashChain.verifyChain H logs).reason = none
       else
         (HashChain.verifyChain H logs).reason = some "prev_hash mismatch")) := by
  refine ⟨rfl, ?_, ?_⟩
  · intro logs hall
    apply HashChain.verifyChainAux_ok
    intro i
    by_cases hi : i < logs.length
    · exact List.all_eq_true.mp hall i (List.mem_range.mpr hi)
    · exact HashChain.stepOk_of_le_length H none logs i (by omega)
  · intro logs j hj hall hbad
    have hpre : ∀ i, i < j → HashChain.stepOk H none logs i = true := by
      intro i hi
      exact List.all_eq_true.mp hall i (List.mem_range.mpr hi)
    have hres := HashChain.verifyChainAux_break H logs none j hj hpre hbad
    have htake := HashChain.verifyChainAux_take H logs none j hj hpre hbad
    refine ⟨?_, ?_, htake, ?_⟩
    · show (HashChain.verifyChainAux H none logs).valid = false
      rw [hres]; split <;> rfl
    · show (HashChain.verifyChainAux H none logs).brokenAt = some logs[j].id
      rw [hres]; split <;> rfl
    · by_cases hcond : HashChain.generateHash H logs[j]
          (HashChain.prevAt none logs j) ≠ logs[j].hash
      · rw [if_pos hcond]
        constructor
        · show (HashChain.verifyChainAux H none logs).expected = _
          rw [hres, if_pos hcond]
        · show (HashChain.verifyChainAux H none logs).reason = none
          rw [hres, if_pos hcond]
      · rw [if_neg hcond]
        show (HashChain.verifyChainAux H none logs).reason = some _
        rw [hres, if_neg hcond]

/-- Witness for C1 at a concrete two-entry chain whose second entry fails
the hash check. -/
theorem C1_verifyChain_walk_witness :
    (HashChain.verifyChain c1H c1logs).valid = false ∧
    (HashChain.verifyChain c1H c1logs).brokenAt = some 2 ∧
    HashChain.verifyChain c1H c1logs =
      HashChain.verifyChain c1H (c1logs.take 2) := by
  have h := (C1_verifyChain_walk c1H).2.2 c1logs 1 (by decide) (by decide)
    (by decide)
  exact ⟨h.1, h.2.1, h.2.2.1⟩

/-- C2: mutating any single field of entry `k` of a valid chain (assuming
the digest does not collide on the two serializations this produces) makes
`verifyChain` report `valid: false` with `brokenAt` the id of entry `k` or
of the next entry. -/
theorem C2_tamper_detection (H : HashInput → String) (logs : List LogEntry)
    (hv : (HashChain.verifyChain H logs).valid = true)
    (k : Nat) (hk : k < logs.length) (m : FieldMut)
    (hchg : mutChanges logs[k] m)
    (hcoll :
      HashChain.hashInput (applyMut logs[k] m) (HashChain.prevAt none logs k) ≠
        HashChain.hashInput logs[k] (HashChain.prevAt none logs k) →
      H (HashChain.hashInput (applyMut logs[k] m)
          (HashChain.prevAt none logs k)) ≠
        H (HashChain.hashInput logs[k] (HashChain.prevAt none logs k))) :
    (HashChain.verifyChain H (logs.set k (applyMut logs[k] m))).valid = false ∧
    ((HashChain.verifyChain H (logs.set k (applyMut logs[k] m))).brokenAt =
       some logs[k].id ∨
     ∃ hk1 : k + 1 < logs.length,
       (HashChain.verifyChain H (logs.set k (applyMut logs[k] m))).brokenAt =
         some logs[k + 1].id) := by
  have hsteps := HashChain.verifyChainAux_valid H logs none hv
  have hk' : k < (logs.set k (applyMut logs[k] m)).length := by
    simpa using hk
  have hprev : ∀ i, i ≤ k →
      HashChain.prevAt none (logs.set k (applyMut logs[k] m)) i =
        HashChain.prevAt none logs i := by
    intro i hi
    cases i with
    | zero => rfl
    | succ j =>
      simp only [HashChain.prevAt]
      rw [List.getElem?_set_ne (show k ≠ j by omega)]
  have hpre : ∀ i, i < k →
      HashChain.stepOk H none (logs.set k (applyMut logs[k] m)) i = true := by
    intro i hi
    have heq : HashChain.stepOk H none (logs.set k (applyMut logs[k] m)) i =
        HashChain.stepOk H none logs i := by
      unfold HashChain.stepOk
      rw [List.getElem?_set_ne (show k ≠ i by omega), hprev i (Nat.le_of_lt hi)]
    rw [heq]
    exact hsteps i
  have hstep_k := hsteps k
  unfold HashChain.stepOk at hstep_k
  rw [List.getElem?_eq_getElem hk] at hstep_k
  simp only [Bool.and_eq_true, decide_eq_true_eq] at hstep_k
  obtain ⟨hh, hpv⟩ := hstep_k
  have hfail : ¬ (HashChain.generateHash H (applyMut logs[k] m)
      (HashChain.prevAt none logs k) = (applyMut logs[k] m).hash ∧
      (applyMut logs[k] m).prev_hash = HashChain.prevAt none logs k) := by
    cases m with
    | txnId v =>
      rintro ⟨h1, -⟩
      exact hcoll (fun hEq => hchg (congrArg HashInput.transaction_id hEq))
        (h1.trans hh.symm)
    | act v =>
      rintro ⟨h1, -⟩
      exact hcoll (fun hEq => hchg (congrArg HashInput.action hEq))
        (h1.trans hh.symm)
    | perfBy v =>
      rintro ⟨h1, -⟩
      exact hcoll (fun hEq => hchg (congrArg HashInput.performed_by hEq))
        (h1.trans hh.symm)
    | det v =>
      rintro ⟨h1, -⟩
      exact hcoll (fun hEq => hchg (congrArg HashInput.details hEq))
        (h1.trans hh.symm)
    | ts v =>
      rintro ⟨h1, -⟩
      exact hcoll (fun hEq => hchg (congrArg HashInput.timestamp hEq))
        (h1.trans hh.symm)
    | prevH v =>
      rintro ⟨-, h2⟩
      exact hchg (h2.trans hpv.symm)
    | hashVal v =>
      rintro ⟨h1, -⟩
      exact hchg (h1.symm.trans hh)
  have hbad : HashChain.stepOk H none (logs.set k (applyMut logs[k] m)) k =
      false := by
    unfold HashChain.stepOk
    rw [List.getElem?_eq_getElem hk', List.getElem_set_self, hprev k le_rfl]
    by_cases h1 : HashChain.generateHash H (applyMut logs[k] m)
        (HashChain.prevAt none logs k) = (applyMut logs[k] m).hash
    · have h2 : ¬ (applyMut logs[k] m).prev_hash =
          HashChain.prevAt none logs k := fun h2 => hfail ⟨h1, h2⟩
      simp [h1, h2]
    · simp [h1]
  have hres := HashChain.verifyChainAux_break H
    (logs.set k (applyMut logs[k] m)) none k hk' hpre hbad
  rw [List.getElem_set_self, hprev k le_rfl] at hres
  have hid : (applyMut logs[k] m).id = logs[k].id := by cases m <;> rfl
  constructor
  · show (HashChain.verifyChainAux H none
      (logs.set k (applyMut logs[k] m))).valid = false
    rw [hres]; split <;> rfl
  · left
    show (HashChain.verifyChainAux H none
      (logs.set k (applyMut logs[k] m))).brokenAt = some logs[k].id
    rw [hres]
    split <;> simp [hid]

/-- Witness for C2: mutating the stored hash of the first entry of a
concrete valid two-entry chain breaks verification at that entry. -/
theorem C2_tamper_detection_witness :
    (HashChain.verifyChain c2H
      (c2logs.set 0 (applyMut c2e1 (FieldMut.hashVal "X")))).valid = false := by
  have h := C2_tamper_detection c2H c2logs (by decide) 0 (by decide)
    (FieldMut.hashVal "X")
    (by show ("X" : String) ≠ "A"; decide)
    (by intro hne; exact absurd rfl hne)
  exact h.1

theorem mem_sortDescBy {α : Type} (key : α → Int) (l : List α) (x : α) :
    x ∈ sortDescBy key l ↔ x ∈ l := by
  unfold sortDescBy
  exact (List.perm_insertionSort _ l).mem_iff

theorem mem_sortAscBy {α : Type} (key : α → Nat) (l : List α) (x : α) :
    x ∈ sortAscBy key l ↔ x ∈ l := by
  unfold sortAscBy
  exact (List.perm_insertionSort _ l).mem_iff

/-- C7: a voided/refunded transaction in the window (with cashier on file)
that has both a completion time and a void/refund time yields a finding
exactly when the gap is in [0, 10] minutes; the confidence is 0.95 / 0.80 /
0.65 by gap ≤ 2 / ≤ 5 / else, and severity is critical exactly when the
confidence is at least 0.8, else high. -/
theorem C7_voidRefundCover_rule (s : Store) (since : Int) (t : Txn)
    (hmem : t ∈ s.transactions)
    (hstatus : t.status = "voided" ∨ t.status = "refunded")
    (hwin : since ≤ t.created_at)
    (huser : userExists s t.cashier_id = true)
    (ct vt : Int)
    (hct : AnomalyEngine.completedTime s t.id = some ct)
    (hvt : jsOrOpt t.voided_at t.refunded_at = some vt) :
    ((AnomalyEngine.voidCoverCheck s t).isSome ↔
      (0 ≤ ((vt - ct : Int) : ℚ) / 60000 ∧ ((vt - ct : Int) : ℚ) / 60000 ≤ 10)) ∧
    (∀ a, AnomalyEngine.voidCoverCheck s t = some a →
      a ∈ AnomalyEngine.detectVoidRefundCover s since ∧
      a.confidence =
        (if ((vt - ct : Int) : ℚ) / 60000 ≤ 2 then 95/100
         else if ((vt - ct : Int) : ℚ) / 60000 ≤ 5 then 80/100
         else 65/100) ∧
      a.severity = (if (80:ℚ)/100 ≤ a.confidence then "critical" else "high") ∧
      a.transaction_id = some t.id ∧
      a.gap_minutes = some (((vt - ct : Int) : ℚ) / 60000)) := by
  have helig : t ∈ AnomalyEngine.voidEligible s since := by
    rw [AnomalyEngine.voidEligible, mem_sortDescBy]
    refine List.mem_filter.mpr ⟨hmem, ?_⟩
    simp only [Bool.and_eq_true, Bool.or_eq_true, beq_iff_eq, decide_eq_true_eq]
    refine ⟨⟨?_, hwin⟩, huser⟩
    rcases hstatus with h | h
    · exact Or.inl h
    · exact Or.inr h
  constructor
  · simp only [AnomalyEngine.voidCoverCheck, hct, hvt]
    by_cases hgap : ((vt - ct : Int) : ℚ) / 60000 ≤ 10 ∧
        0 ≤ ((vt - ct : Int) : ℚ) / 60000
    · rw [if_pos hgap]
      exact iff_of_true rfl ⟨hgap.2, hgap.1⟩
    · rw [if_neg hgap]
      exact iff_of_false (by simp) (fun hc => hgap ⟨hc.2, hc.1⟩)
  · intro a ha
    have hmemd : a ∈ AnomalyEngine.detectVoidRefundCover s since := by
      rw [AnomalyEngine.detectVoidRefundCover]
      exact List.mem_filterMap.mpr ⟨t, helig, ha⟩
    simp only [AnomalyEngine.voidCoverCheck, hct, hvt] at ha
    by_cases hgap : ((vt - ct : Int) : ℚ) / 60000 ≤ 10 ∧
        0 ≤ ((vt - ct : Int) : ℚ) / 60000
    · rw [if_pos hgap] at ha
      obtain rfl := Option.some.inj ha
      exact ⟨hmemd, rfl, rfl, rfl, rfl⟩
    · rw [if_neg hgap] at ha
      exact absurd ha (by simp)

/-- Witness for C7: a transaction voided 1.5 minutes after completion is
reported. -/
theorem C7_voidRefundCover_rule_witness :
    (AnomalyEngine.voidCoverCheck c7s c7txn).isSome = true := by
  have h := C7_voidRefundCover_rule c7s 0 c7txn
    (List.mem_singleton.mpr rfl) (Or.inl rfl) (by decide) (by decide)
    1000000 1090000 (by decide) rfl
  exact h.1.mpr (by norm_num)

/-- C8: an actor is reported by the discount-abuse detector exactly when the
actor's discount/price-edit count strictly exceeds twice the population mean
per cashier and is at least 3; the confidence is
`min(0.95, 0.5 + 0.1 * count/mean)` and severity is critical exactly when
the count strictly exceeds five times the mean, else medium. -/
theorem C8_discountAbuse_rule (s : Store) (since : Int) (actor : Nat)
    (havg : 0 < AnomalyEngine.avgPerCashier s since) :
    ((AnomalyEngine.discountAbuseCheck s since actor).isSome ↔
      (AnomalyEngine.avgPerCashier s since * 2 <
        (AnomalyEngine.discountCountOf s since actor : ℚ) ∧
       3 ≤ AnomalyEngine.discountCountOf s since actor)) ∧
    (∀ a, AnomalyEngine.discountAbuseCheck s since actor = some a →
      a ∈ AnomalyEngine.detectDiscountAbuse s since ∧
      a.confidence = min (95/100)
        (1/2 + ((AnomalyEngine.discountCountOf s since actor : ℚ) /
          AnomalyEngine.avgPerCashier s since) * (1/10)) ∧
      a.severity = (if AnomalyEngine.avgPerCashier s since * 5 <
          (AnomalyEngine.discountCountOf s since actor : ℚ)
        then "critical" else "medium") ∧
      a.count = some (AnomalyEngine.discountCountOf s since actor) ∧
      a.average = some (AnomalyEngine.avgPerCashier s since)) := by
  have hjs : jsOrQ (AnomalyEngine.avgPerCashier s since) 1 =
      AnomalyEngine.avgPerCashier s since := by
    unfold jsOrQ
    rw [if_neg (ne_of_gt havg)]
  constructor
  · simp only [AnomalyEngine.discountAbuseCheck]
    by_cases hcond : AnomalyEngine.avgPerCashier s since * 2 <
        (AnomalyEngine.discountCountOf s since actor : ℚ) ∧
        3 ≤ AnomalyEngine.discountCountOf s since actor
    · rw [if_pos hcond]
      exact iff_of_true rfl hcond
    · rw [if_neg hcond]
      exact iff_of_false (by simp) hcond
  · intro a ha
    simp only [AnomalyEngine.discountAbuseCheck] at ha
    by_cases hcond : AnomalyEngine.avgPerCashier s since * 2 <
        (AnomalyEngine.discountCountOf s since actor : ℚ) ∧
        3 ≤ AnomalyEngine.discountCountOf s since actor
    · have hpos : 0 < (AnomalyEngine.discountLog s since).countP
          (fun l => l.performed_by == actor) := by
        have := hcond.2
        unfold AnomalyEngine.discountCountOf at this
        omega
      obtain ⟨l, hl, hla⟩ := List.countP_pos_iff.mp hpos
      have hactor : actor ∈ AnomalyEngine.discountActors s since := by
        rw [AnomalyEngine.discountActors, List.mem_dedup]
        exact List.mem_map.mpr ⟨l, hl, by simpa using hla⟩
      have hmemd : a ∈ AnomalyEngine.detectDiscountAbuse s since := by
        rw [AnomalyEngine.detectDiscountAbuse]
        refine List.mem_filterMap.mpr ⟨actor, hactor, ?_⟩
        simpa only [AnomalyEngine.discountAbuseCheck] using ha
      rw [if_pos hcond] at ha
      obtain rfl := Option.some.inj ha
      refine ⟨hmemd, ?_, rfl, rfl, rfl⟩
      rw [hjs]
    · rw [if_neg hcond] at ha
      exact absurd ha (by simp)

/-- Witness for C8: six price edits against a mean of 1.2; 6 > 2.4 and
6 ≥ 3, so a finding exists, and since 6 > 6 is false its severity is
`medium` (the claim's boundary case). -/
theorem C8_discountAbuse_rule_witness :
    (AnomalyEngine.discountAbuseCheck c8s 0 1).isSome = true ∧
    (AnomalyEngine.discountAbuseCheck c8s 0 1).map
      (fun a => a.severity) = some "medium" := by
  have havg : AnomalyEngine.avgPerCashier c8s 0 = 6/5 := by
    rw [AnomalyEngine.avgPerCashier]
    norm_num [AnomalyEngine.cashiers, AnomalyEngine.totalDiscounts,
      AnomalyEngine.discountLog, c8s, c8users, c8log]
  have hcnt : AnomalyEngine.discountCountOf c8s 0 1 = 6 := by decide
  have h := C8_discountAbuse_rule c8s 0 1 (by rw [havg]; norm_num)
  have hsome : (AnomalyEngine.discountAbuseCheck c8s 0 1).isSome = true := by
    rw [h.1, havg, hcnt]
    norm_num
  refine ⟨hsome, ?_⟩
  rcases ho : AnomalyEngine.discountAbuseCheck c8s 0 1 with - | a
  · rw [ho] at hsome
    simp at hsome
  · have hfields := h.2 a ho
    simp only [Option.map_some']
    rw [hfields.2.2.1, havg, hcnt]
    norm_num

/-- C9: for every adjacent pair of the id-ordered audit log, the
log-tampering detector reports a gap finding exactly when the timestamp gap
strictly exceeds 30 minutes and the earlier entry's hour is in 8..22; the
confidence is `min(0.95, 0.5 + gapMinutes/120)` and severity is critical
exactly when the gap strictly exceeds 60 minutes, else high. -/
theorem C9_logTampering_gap_rule (prevE curr : LogEntry) (s : Store) :
    ((AnomalyEngine.gapCheck prevE curr).isSome ↔
      (30 < ((curr.timestamp - prevE.timestamp : Int) : ℚ) / 60000 ∧
       8 ≤ AnomalyEngine.getHours prevE.timestamp ∧
       AnomalyEngine.getHours prevE.timestamp ≤ 22)) ∧
    (∀ a, AnomalyEngine.gapCheck prevE curr = some a →
      a.confidence = min (95/100)
        (1/2 + (((curr.timestamp - prevE.timestamp : Int) : ℚ) / 60000) / 120) ∧
      a.severity =
        (if 60 < ((curr.timestamp - prevE.timestamp : Int) : ℚ) / 60000
         then "critical" else "high") ∧
      a.gap_minutes = some (((curr.timestamp - prevE.timestamp : Int) : ℚ) / 60000)) ∧
    AnomalyEngine.gapFindings s =
      (AnomalyEngine.adjPairs (AnomalyEngine.logsById s)).filterMap
        (fun pq => AnomalyEngine.gapCheck pq.1 pq.2) := by
  refine ⟨?_, ?_, rfl⟩
  · simp only [AnomalyEngine.gapCheck]
    by_cases hcond : 30 < ((curr.timestamp - prevE.timestamp : Int) : ℚ) / 60000 ∧
        8 ≤ AnomalyEngine.getHours prevE.timestamp ∧
        AnomalyEngine.getHours prevE.timestamp ≤ 22
    · rw [if_pos hcond]
      exact iff_of_true rfl hcond
    · rw [if_neg hcond]
      exact iff_of_false (by simp) hcond
  · intro a ha
    simp only [AnomalyEngine.gapCheck] at ha
    by_cases hcond : 30 < ((curr.timestamp - prevE.timestamp : Int) : ℚ) / 60000 ∧
        8 ≤ AnomalyEngine.getHours prevE.timestamp ∧
        AnomalyEngine.getHours prevE.timestamp ≤ 22
    · rw [if_pos hcond] at ha
      obtain rfl := Option.some.inj ha
      exact ⟨rfl, rfl, rfl⟩
    · rw [if_neg hcond] at ha
      exact absurd ha (by simp)

/-- Witness for C9: a 45-minute gap whose earlier entry sits at hour 8 is
reported. -/
theorem C9_logTampering_gap_rule_witness :
    (AnomalyEngine.gapCheck c9a c9b).isSome = true := by
  have h := (C9_logTampering_gap_rule c9a c9b { }).1
  refine h.mpr ⟨?_, ?_, ?_⟩
  · show (30:ℚ) < ((c9b.timestamp - c9a.timestamp : Int) : ℚ) / 60000
    norm_num [c9a, c9b]
  · show (8:Int) ≤ AnomalyEngine.getHours c9a.timestamp
    decide
  · show AnomalyEngine.getHours c9a.timestamp ≤ 22
    decide

/-- C10: the Risk Scorer does not drop unrecognized events: an unknown
software type scores with default weight 5, an unknown camera type with
default weight 10, and an absent or zero (falsy) confidence defaults to 1
for software events and 0.5 for camera events, before the `min(100, sum)`
clamp. -/
theorem C10_riskScorer_defaults :
    (∀ es : List RiskEngine.SWEvent,
      RiskEngine.calculateSoftwareScore es =
        min 100 ((es.map RiskEngine.swContrib).sum)) ∧
    (∀ e : RiskEngine.SWEvent,
      e.type ∉ RiskEngine.SW_WEIGHTS.map Prod.fst →
      RiskEngine.swContrib e = 5 * jsOrNum e.confidence 1) ∧
    (∀ e : RiskEngine.SWEvent,
      e.confidence = none ∨ e.confidence = some 0 →
      RiskEngine.swContrib e =
        jsOrNum (RiskEngine.weightLookup RiskEngine.SW_WEIGHTS e.type) 5 * 1) ∧
    (∀ es : List RiskEngine.PhysEvent,
      RiskEngine.calculatePhysicalScore es =
        min 100 ((es.map RiskEngine.phContrib).sum)) ∧
    (∀ e : RiskEngine.PhysEvent,
      e.event_type ∉ RiskEngine.PH_WEIGHTS.map Prod.fst →
      RiskEngine.phContrib e = 10 * jsOrNum e.confidence (1/2)) ∧
    (∀ e : RiskEngine.PhysEvent,
      e.confidence = none ∨ e.confidence = some 0 →
      RiskEngine.phContrib e =
        jsOrNum (RiskEngine.weightLookup RiskEngine.PH_WEIGHTS e.event_type) 10
          * (1/2)) := by
  have hlook : ∀ (tbl : List (String × ℚ)) (t : String),
      t ∉ tbl.map Prod.fst → RiskEngine.weightLookup tbl t = none := by
    intro tbl t ht
    rw [RiskEngine.weightLookup]
    rw [List.find?_eq_none.mpr]
    · rfl
    · intro p hp
      simp only [beq_iff_eq]
      intro hpt
      exact ht (List.mem_map.mpr ⟨p, hp, hpt⟩)
  refine ⟨fun _ => rfl, ?_, ?_, fun _ => rfl, ?_, ?_⟩
  · intro e he
    rw [RiskEngine.swContrib, hlook _ _ he]
    rfl
  · intro e he
    rw [RiskEngine.swContrib]
    rcases he with he | he <;> rw [he] <;> rfl
  · intro e he
    rw [RiskEngine.phContrib, hlook _ _ he]
    rfl
  · intro e he
    rw [RiskEngine.phContrib]
    rcases he with he | he <;> rw [he] <;> rfl

/-- Witness for C10: an unrecognized software event type with absent
confidence contributes exactly 5 points. -/
theorem C10_riskScorer_defaults_witness :
    RiskEngine.swContrib { type := "weird_event", confidence := none } = 5 := by
  have h := C10_riskScorer_defaults.2.1
    { type := "weird_event", confidence := none } (by decide)
  rw [h]
  norm_num [jsOrNum]

namespace AnomalyEngine

theorem tag_risk_weight (cat lab icon : String) (a : Anomaly) :
    (tagAnomaly cat lab icon a).risk_weight = a.risk_weight := rfl

theorem tag_confidence (cat lab icon : String) (a : Anomaly) :
    (tagAnomaly cat lab icon a).confidence = a.confidence := rfl

theorem unauthorizedDrawerCheck_weight (jsonOk : String → Bool) (s : Store)
    (evt : LogEntry) (a : Anomaly)
    (h : unauthorizedDrawerCheck jsonOk s evt = .ok (some a)) :
    a.risk_weight = 20 := by
  simp only [unauthorizedDrawerCheck] at h
  split at h
  · cases h
  · split at h
    · obtain rfl := Option.some.inj (Except.ok.inj h)
      rfl
    · cases h

theorem collectDrawer_weight (jsonOk : String → Bool) (s : Store) :
    ∀ (lst : List LogEntry) (l : List Anomaly),
    collectDrawer jsonOk s lst = .ok l → ∀ a ∈ l, 0 < a.risk_weight := by
  intro lst
  induction lst with
  | nil =>
    intro l h a ha
    obtain rfl := Except.ok.inj h
    cases ha
  | cons evt rest ih =>
    intro l h a ha
    rw [collectDrawer] at h
    rcases hc : unauthorizedDrawerCheck jsonOk s evt with e | a?
    · rw [hc] at h; cases h
    · rw [hc] at h
      rcases hr : collectDrawer jsonOk s rest with e | more
      · rw [hr] at h; cases h
      · rw [hr] at h
        cases a? with
        | none =>
          obtain rfl := Except.ok.inj h
          exact ih more hr a ha
        | some a0 =>
          obtain rfl := Except.ok.inj h
          rcases List.mem_cons.mp ha with rfl | ha'
          · rw [unauthorizedDrawerCheck_weight jsonOk s evt a hc]
            norm_num
          · exact ih more hr a ha'

theorem detectUnauthorizedDrawerOpen_weight (jsonOk : String → Bool)
    (s : Store) (since : Int) (l : List Anomaly)
    (h : detectUnauthorizedDrawerOpen jsonOk s since = .ok l) :
    ∀ a ∈ l, 0 < a.risk_weight := by
  intro a ha
  rw [detectUnauthorizedDrawerOpen] at h
  rcases hb : collectDrawer jsonOk s (drawerEvents s since) with e | base
  · rw [hb] at h; cases h
  · rw [hb] at h
    simp only [] at h
    obtain rfl := Except.ok.inj h
    rcases List.mem_append.mp ha with h1 | h2
    · exact collectDrawer_weight jsonOk s _ base hb a h1
    · obtain ⟨alert, -, rfl⟩ := List.mem_map.mp h2
      norm_num

theorem phantomCheck_weight (s : Store) (t : Txn) (a : Anomaly)
    (h : phantomCheck s t = some a) : a.risk_weight = 20 := by
  unfold phantomCheck at h
  split at h
  · cases h
  · split at h
    · obtain rfl := Option.some.inj h
      rfl
    · cases h

theorem voidCoverCheck_weight (s : Store) (t : Txn) (a : Anomaly)
    (h : voidCoverCheck s t = some a) : a.risk_weight = 20 := by
  simp only [voidCoverCheck] at h
  split at h
  · split at h
    · obtain rfl := Option.some.inj h
      rfl
    · cases h
  · cases h

theorem discountAbuseCheck_weight (s : Store) (since : Int) (actor : Nat)
    (a : Anomaly) (h : discountAbuseCheck s since actor = some a) :
    a.risk_weight = 12 := by
  simp only [discountAbuseCheck] at h
  split at h
  · obtain rfl := Option.some.inj h
    rfl
  · cases h

theorem detectLogTampering_weight (H : HashInput → String) (s : Store)
    (now : Int) : ∀ a ∈ detectLogTampering H s now, 0 < a.risk_weight := by
  intro a ha
  rw [detectLogTampering] at ha
  rcases List.mem_append.mp ha with h12 | h3
  · rcases List.mem_append.mp h12 with h1 | h2
    · simp only [chainBreakFindings] at h1
      split at h1
      · split at h1
        · cases h1
        · rcases List.mem_singleton.mp h1 with rfl
          norm_num
      · cases h1
    · rw [gapFindings] at h2
      obtain ⟨pq, -, hck⟩ := List.mem_filterMap.mp h2
      simp only [gapCheck] at hck
      split at hck
      · obtain rfl := Option.some.inj hck
        norm_num
      · cases hck
  · rw [idGapFindings] at h3
    obtain ⟨ab, -, rfl⟩ := List.mem_map.mp h3
    norm_num

theorem drawerNoTxnCheck_weight (s : Store) (evt : CamEvent) :
    0 < (drawerNoTxnCheck s evt).risk_weight := by
  unfold drawerNoTxnCheck
  split <;> norm_num

theorem detectTimeManipulation_weight (s : Store) (since now : Int) :
    ∀ a ∈ detectTimeManipulation s since now, 0 < a.risk_weight := by
  intro a ha
  rw [detectTimeManipulation] at ha
  rcases List.mem_append.mp ha with h1 | h2
  · obtain ⟨t, -, rfl⟩ := List.mem_map.mp h1
    norm_num
  · obtain ⟨ab, -, rfl⟩ := List.mem_map.mp h2
    norm_num

theorem crossCamCheck_weight (s : Store) (evt : CamEvent) (a : Anomaly)
    (h : crossCamCheck s evt = some a) : a.risk_weight = 20 := by
  simp only [crossCamCheck] at h
  split at h
  · obtain rfl := Option.some.inj h
    rfl
  · cases h

theorem crossVoidCheck_weight (s : Store) (lt : LogEntry × Txn) (a : Anomaly)
    (h : crossVoidCheck s lt = some a) : a.risk_weight = 25 := by
  simp only [crossVoidCheck] at h
  split at h
  · cases h
  · obtain rfl := Option.some.inj h
    rfl

theorem detectCrossSourceCorrelation_weight (s : Store) (since : Int) :
    ∀ a ∈ detectCrossSourceCorrelation s since, 0 < a.risk_weight := by
  intro a ha
  rw [detectCrossSourceCorrelation] at ha
  rcases List.mem_append.mp ha with h1 | h2
  · obtain ⟨evt, -, hck⟩ := List.mem_filterMap.mp h1
    rw [crossCamCheck_weight s evt a hck]
    norm_num
  · obtain ⟨lt, -, hck⟩ := List.mem_filterMap.mp h2
    rw [crossVoidCheck_weight s lt a hck]
    norm_num

end AnomalyEngine

namespace AnomalyEngine

theorem fullScan_ok_scan_timestamp (H : HashInput → String)
    (jsonOk : String → Bool) (s : Store) (hoursBack : Nat) (now : Int)
    (r : ScanReport) (h : fullScan H jsonOk s hoursBack now = .ok r) :
    r.scan_timestamp = now := by
  simp only [fullScan] at h
  rcases hd : detectUnauthorizedDrawerOpen jsonOk s
      (now - (hoursBack : Int) * 3600000) with e | d1
  · rw [hd] at h; cases h
  · rw [hd] at h
    obtain rfl := Except.ok.inj h
    rfl

theorem fullScan_ok_score (H : HashInput → String)
    (jsonOk : String → Bool) (s : Store) (hoursBack : Nat) (now : Int)
    (r : ScanReport) (h : fullScan H jsonOk s hoursBack now = .ok r) :
    r.prosecution_score = min 100 (jsRound
      ((r.anomalies.map (fun a => a.confidence * jsOrQ a.risk_weight 10)).sum)) := by
  simp only [fullScan] at h
  rcases hd : detectUnauthorizedDrawerOpen jsonOk s
      (now - (hoursBack : Int) * 3600000) with e | d1
  · rw [hd] at h; cases h
  · rw [hd] at h
    obtain rfl := Except.ok.inj h
    rfl

theorem fullScan_ok_weight_pos (H : HashInput → String)
    (jsonOk : String → Bool) (s : Store) (hoursBack : Nat) (now : Int)
    (r : ScanReport) (h : fullScan H jsonOk s hoursBack now = .ok r) :
    ∀ a ∈ r.anomalies, 0 < a.risk_weight := by
  intro a ha
  simp only [fullScan] at h
  rcases hd : detectUnauthorizedDrawerOpen jsonOk s
      (now - (hoursBack : Int) * 3600000) with e | d1
  · rw [hd] at h; cases h
  · rw [hd] at h
    obtain rfl := Except.ok.inj h
    simp only [List.mem_append] at ha
    rcases ha with ((((((ha | ha) | ha) | ha) | ha) | ha) | ha) | ha
    all_goals obtain ⟨b, hb, rfl⟩ := List.mem_map.mp ha
    all_goals rw [tag_risk_weight]
    · exact detectUnauthorizedDrawerOpen_weight jsonOk s _ d1 hd b hb
    · obtain ⟨t, -, hck⟩ := List.mem_filterMap.mp hb
      rw [phantomCheck_weight s t b hck]
      norm_num
    · obtain ⟨t, -, hck⟩ := List.mem_filterMap.mp hb
      rw [voidCoverCheck_weight s t b hck]
      norm_num
    · obtain ⟨actor, -, hck⟩ := List.mem_filterMap.mp hb
      rw [discountAbuseCheck_weight s _ actor b hck]
      norm_num
    · exact detectLogTampering_weight H s now b hb
    · obtain ⟨evt, -, rfl⟩ := List.mem_map.mp hb
      exact drawerNoTxnCheck_weight s evt
    · exact detectTimeManipulation_weight s _ now b hb
    · exact detectCrossSourceCorrelation_weight s _ b hb

end AnomalyEngine

/-- C3 (amended): `prosecution_score` equals
`min(100, round(Σ confidence × risk_weight))` over the report's findings;
it is always at most 100, and it is at least 0 whenever every finding's
confidence is nonnegative — but the code has no lower clamp, so a negative
camera-supplied confidence drives it below 0. -/
theorem C3_prosecution_score_formula (H : HashInput → String)
    (jsonOk : String → Bool) (s : Store) (hoursBack : Nat) (now : Int)
    (r : AnomalyEngine.ScanReport)
    (hok : AnomalyEngine.fullScan H jsonOk s hoursBack now = .ok r) :
    r.prosecution_score = min 100 (jsRound
      ((r.anomalies.map (fun a => a.confidence * a.risk_weight)).sum)) ∧
    r.prosecution_score ≤ 100 ∧
    ((∀ a ∈ r.anomalies, 0 ≤ a.confidence) → 0 ≤ r.prosecution_score) := by
  have hw := AnomalyEngine.fullScan_ok_weight_pos H jsonOk s hoursBack now r hok
  have hform := AnomalyEngine.fullScan_ok_score H jsonOk s hoursBack now r hok
  have hmapeq : r.anomalies.map (fun a => a.confidence * jsOrQ a.risk_weight 10)
      = r.anomalies.map (fun a => a.confidence * a.risk_weight) :=
    List.map_congr_left (fun a ha => by
      rw [jsOrQ, if_neg (ne_of_gt (hw a ha))])
  rw [hmapeq] at hform
  refine ⟨hform, ?_, ?_⟩
  · rw [hform]
    exact min_le_left _ _
  · intro hconf
    rw [hform]
    have hsum : 0 ≤ (r.anomalies.map
        (fun a => a.confidence * a.risk_weight)).sum := by
      apply List.sum_nonneg
      intro x hx
      obtain ⟨a, ha, rfl⟩ := List.mem_map.mp hx
      exact mul_nonneg (hconf a ha) (le_of_lt (hw a ha))
    have hround : (0 : Int) ≤ jsRound ((r.anomalies.map
        (fun a => a.confidence * a.risk_weight)).sum) := by
      rw [jsRound, Int.le_floor]
      push_cast
      linarith
    exact le_min (by norm_num) hround

/-- Counterexample to C3 as stated: with a camera event of confidence −10,
the scan's prosecution score is −250, outside [0, 100]. -/
theorem C3_counterexample :
    (AnomalyEngine.fullScan H0 jOkAll c3s 24 0).map
      (fun r => r.prosecution_score) = Except.ok (-250) ∧
    ((-250 : Int) < 0) := by
  refine ⟨?_, by norm_num⟩
  have hok : (AnomalyEngine.fullScan H0 jOkAll c3s 24 0).isOk = true := by rfl
  rcases he : AnomalyEngine.fullScan H0 jOkAll c3s 24 0 with e | r
  · rw [he] at hok
    simp [Except.isOk, Except.toBool] at hok
  · have hscore := AnomalyEngine.fullScan_ok_score H0 jOkAll c3s 24 0 r he
    have h3 : (AnomalyEngine.fullScan H0 jOkAll c3s 24 0).map
        (fun rr => rr.anomalies.map (fun a => (a.confidence, a.risk_weight))) =
        Except.ok [((-10 : ℚ), (25 : ℚ))] := by rfl
    rw [he] at h3
    simp only [Except.map] at h3
    have hmap := Except.ok.inj h3
    rcases hl : r.anomalies with - | ⟨a0, tl⟩
    · rw [hl] at hmap
      simp at hmap
    · rcases tl with - | ⟨a1, tl'⟩
      · rw [hl] at hmap
        simp only [List.map_cons, List.map_nil, List.cons.injEq,
          and_true] at hmap
        have hconf : a0.confidence = -10 := congrArg Prod.fst hmap
        have hwt : a0.risk_weight = 25 := congrArg Prod.snd hmap
        simp only [Except.map]
        rw [hscore, hl]
        simp only [List.map_cons, List.map_nil, List.sum_cons, List.sum_nil,
          hconf, hwt]
        norm_num [jsOrQ, jsRound]
      · rw [hl] at hmap
        simp at hmap
  
/-- Witness for C3 (amended) at the same negative-confidence store: the
formula and the upper bound hold there. -/
theorem C3_prosecution_score_formula_witness :
    ∃ r, AnomalyEngine.fullScan H0 jOkAll c3s 24 0 = .ok r ∧
      r.prosecution_score ≤ 100 := by
  have hok : (AnomalyEngine.fullScan H0 jOkAll c3s 24 0).isOk = true := by rfl
  rcases he : AnomalyEngine.fullScan H0 jOkAll c3s 24 0 with e | r
  · rw [he] at hok
    simp [Except.isOk, Except.toBool] at hok
  · exact ⟨r, rfl, (C3_prosecution_score_formula H0 jOkAll c3s 24 0 r he).2.1⟩

/-- C4 (amended): camera-supplied confidences are passed through unclamped:
detector 6 uses the camera confidence unchanged when no matching
transaction exists, and detector 8 uses the camera confidence × 0.9, so a
finding's confidence leaves [0, 1] exactly as the camera's value does. -/
theorem C4_confidence_passthrough (s : Store) (evt : CamEvent)
    (hno : AnomalyEngine.matchingTxnAt s evt.counter_id evt.timestamp 2 = none) :
    (AnomalyEngine.drawerNoTxnCheck s evt).confidence = evt.confidence ∧
    (∀ a, AnomalyEngine.crossCamCheck s evt = some a →
      a.confidence = evt.confidence * (9/10)) := by
  constructor
  · simp only [AnomalyEngine.drawerNoTxnCheck, hno]
  · intro a ha
    simp only [AnomalyEngine.crossCamCheck] at ha
    split at ha
    · obtain rfl := Option.some.inj ha
      rfl
    · cases ha

/-- Counterexample to C4 as stated: a camera event with confidence 2
produces a detector-6 finding with confidence 2, outside [0, 1]. -/
theorem C4_counterexample :
    (AnomalyEngine.detectDrawerNoTransaction c4s 0).map
      (fun a => a.confidence) = [2] ∧ ¬ ((2 : ℚ) ≤ 1) := by
  constructor
  · rfl
  · norm_num

/-- Witness for C4 (amended): a forced-open event with confidence 3/4 and no
matching transaction yields a finding with exactly that confidence. -/
theorem C4_confidence_passthrough_witness :
    (AnomalyEngine.drawerNoTxnCheck c4ws c4wcam).confidence = 3/4 := by
  have h := C4_confidence_passthrough c4ws c4wcam (by rfl)
  rw [h.1]
  rfl

/-- C5 (amended): there is no detector isolation: if detector 1 throws (its
`JSON.parse` call fails on a malformed details payload), the whole scan
fails with that exception; no report and no detector-unavailable marker is
produced. -/
theorem C5_throw_aborts_scan (H : HashInput → String)
    (jsonOk : String → Bool) (s : Store) (hoursBack : Nat) (now : Int)
    (msg : String)
    (h : AnomalyEngine.detectUnauthorizedDrawerOpen jsonOk s
      (now - (hoursBack : Int) * 3600000) = .error msg) :
    AnomalyEngine.fullScan H jsonOk s hoursBack now = .error msg := by
  simp only [AnomalyEngine.fullScan]
  rw [h]

/-- Counterexample to C5 as stated: on a store with one malformed details
payload the scan returns an exception, not a report. -/
theorem C5_counterexample :
    AnomalyEngine.fullScan H0 jsonOkStd c5s 24 0 =
      Except.error AnomalyEngine.jsonParseErr := by rfl

/-- Witness for C5 (amended): the abort propagates for any window length. -/
theorem C5_throw_aborts_scan_witness :
    AnomalyEngine.fullScan H0 jsonOkStd c5s 48 0 =
      Except.error AnomalyEngine.jsonParseErr :=
  C5_throw_aborts_scan H0 jsonOkStd c5s 48 0 AnomalyEngine.jsonParseErr (by rfl)

/-- C6 (amended): the report is a pure function of the store, the window and
the clock reading: two scans of the same store and window are identical
exactly when the clock readings agree (the report embeds the clock as
`scan_timestamp`, so different readings always differ). -/
theorem C6_scan_pure (H : HashInput → String) (jsonOk : String → Bool)
    (s : Store) (hoursBack : Nat) (n n' : Int)
    (hok : (AnomalyEngine.fullScan H jsonOk s hoursBack n).isOk = true) :
    (AnomalyEngine.fullScan H jsonOk s hoursBack n =
      AnomalyEngine.fullScan H jsonOk s hoursBack n') ↔ n = n' := by
  constructor
  · intro heq
    rcases e1 : AnomalyEngine.fullScan H jsonOk s hoursBack n with m | r
    · rw [e1] at hok
      simp [Except.isOk, Except.toBool] at hok
    · have hr : r.scan_timestamp = n :=
        AnomalyEngine.fullScan_ok_scan_timestamp H jsonOk s hoursBack n r e1
      have e2 : AnomalyEngine.fullScan H jsonOk s hoursBack n' = .ok r := by
        rw [← heq, e1]
      have hr' : r.scan_timestamp = n' :=
        AnomalyEngine.fullScan_ok_scan_timestamp H jsonOk s hoursBack n' r e2
      omega
  · rintro rfl
    rfl

/-- Counterexample to C6 as stated: two scans of the same (empty) store at
clock readings 0 and 60000 yield different reports (their `scan_timestamp`
fields differ). -/
theorem C6_counterexample :
    AnomalyEngine.fullScan H0 jOkAll { } 24 0 ≠
      AnomalyEngine.fullScan H0 jOkAll { } 24 60000 := by
  intro heq
  have h1 : (AnomalyEngine.fullScan H0 jOkAll { } 24 0).map
      (fun r => r.scan_timestamp) = Except.ok 0 := by rfl
  rw [heq] at h1
  have h2 : (AnomalyEngine.fullScan H0 jOkAll { } 24 60000).map
      (fun r => r.scan_timestamp) = Except.ok 60000 := by rfl
  rw [h1] at h2
  exact absurd (Except.ok.inj h2) (by decide)

/-- Witness for C6 (amended) on the empty store at clock readings 5 and 7. -/
theorem C6_scan_pure_witness :
    (AnomalyEngine.fullScan H0 jOkAll { } 24 5 =
      AnomalyEngine.fullScan H0 jOkAll { } 24 7) ↔ (5 : Int) = 7 :=
  C6_scan_pure H0 jOkAll { } 24 5 7 (by rfl)
